import Mathlib

/-!
Shallow embedding of the projfiles baselib test-automation library.

Python exceptions are modelled by the `PyErr` type and fallible code by
`Except PyErr`.  Python floats carry only decimal literals and order
comparisons here, so they are embedded as rationals.  Handler objects are
immutable records: no CanoeHandler method assigns to any attribute of self
(only the constructor does), which the embedding reflects by methods that
take the handler and return a result without a new state.
-/

/-- Python exception values raised by the library, tagged by exception class. -/
inductive PyErr where
  | valueError (msg : String)
  | connectionError (msg : String)
  | runtimeError (msg : String)
  | assertionError (msg : String)
  | attributeError (msg : String)
  | importError (msg : String)
  | fileNotFoundError (msg : String)
deriving DecidableEq

/-- True when the computation raised a ValueError. -/
def raisesValueError {α : Type} : Except PyErr α → Bool
  | .error (.valueError _) => true
  | _ => false

/-- True when the computation raised a ConnectionError. -/
def raisesConnectionError {α : Type} : Except PyErr α → Bool
  | .error (.connectionError _) => true
  | _ => false

/-- True when the computation raised a RuntimeError. -/
def raisesRuntimeError {α : Type} : Except PyErr α → Bool
  | .error (.runtimeError _) => true
  | _ => false

/-- True when the computation raised an AssertionError. -/
def raisesAssertionError {α : Type} : Except PyErr α → Bool
  | .error (.assertionError _) => true
  | _ => false

/-- True when the computation raised an AttributeError. -/
def raisesAttributeError {α : Type} : Except PyErr α → Bool
  | .error (.attributeError _) => true
  | _ => false

/-- State of a CanoeHandler object (canoe_utils.py): the stored configuration
path and the connected flag. -/
structure CanoeHandler where
  config_path : String
  connected : Bool
deriving DecidableEq

/-- CanoeHandler.__init__ stores the path, sets connected to False and calls
_connect, which sets connected to True; the embedding gives the resulting state. -/
def CanoeHandler.init (config_path : String) : CanoeHandler :=
  { config_path := config_path, connected := true }

/-- The signal_map dictionary of CanoeHandler.read_signal: name to
(message ID, start bit, length). -/
def signal_map : List (String × (Nat × Nat × Nat)) :=
  [("EngineSpeed", (291, 1, 15)),
   ("OnOff", (291, 0, 1)),
   ("FlashLight", (801, 2, 1)),
   ("HeadLight", (801, 0, 1))]

/-- The message_map dictionary of CanoeHandler.send_message: message name to CAN ID. -/
def message_map : List (String × Nat) :=
  [("EngineState", 291), ("LightState", 801)]

/-- The valid_signals dictionary of CanoeHandler.send_message. -/
def valid_signals : List (String × List String) :=
  [("EngineState", ["EngineSpeed", "OnOff"]),
   ("LightState", ["FlashLight", "HeadLight"])]

/-- Signals accepted for a message name: the valid_signals entry, defaulting to
the empty list for names absent from the dictionary. -/
def validKeys (message_name : String) : List String :=
  (valid_signals.lookup message_name).getD []

/-- CanoeHandler.start_measurement: raises ConnectionError when not connected,
otherwise a no-op pass-through. -/
def CanoeHandler.start_measurement (h : CanoeHandler) : Except PyErr Unit :=
  if h.connected then .ok ()
  else .error (.connectionError "Not connected to CANoe")

/-- CanoeHandler.stop_measurement: raises ConnectionError when not connected,
otherwise a no-op pass-through. -/
def CanoeHandler.stop_measurement (h : CanoeHandler) : Except PyErr Unit :=
  if h.connected then .ok ()
  else .error (.connectionError "Not connected to CANoe")

/-- CanoeHandler.read_signal: ConnectionError when not connected, ValueError
when the name is not a key of signal_map, and the placeholder value 0 otherwise. -/
def CanoeHandler.read_signal (h : CanoeHandler) (signal_name : String) : Except PyErr Int :=
  if h.connected then
    if (signal_map.lookup signal_name).isNone then
      .error (.valueError ("Unknown signal: " ++ signal_name))
    else
      .ok 0
  else .error (.connectionError "Not connected to CANoe")

/-- CanoeHandler.send_message: ConnectionError when not connected, ValueError
when the message name is not a key of message_map or some key of data is not in
valid_signals for the message (the loop raises at the first offending key),
and a no-op otherwise. -/
def CanoeHandler.send_message (h : CanoeHandler) (message_name : String)
    (data : List (String × ℚ)) : Except PyErr Unit :=
  if h.connected then
    if (message_map.lookup message_name).isNone then
      .error (.valueError ("Unknown message: " ++ message_name))
    else
      match data.find? (fun p => !(validKeys message_name).contains p.1) with
      | some p => .error (.valueError ("Invalid signal " ++ p.1 ++ " for message " ++ message_name))
      | none => .ok ()
  else .error (.connectionError "Not connected to CANoe")

/-- CanoeHandler.set_vehicle_speed: ValueError for negative speed, then sends
EngineState with EngineSpeed mapped to speed * 100 and OnOff mapped to 1. -/
def CanoeHandler.set_vehicle_speed (h : CanoeHandler) (speed : ℚ) : Except PyErr Unit :=
  if speed < 0 then .error (.valueError "Speed cannot be negative")
  else h.send_message "EngineState" [("EngineSpeed", speed * 100), ("OnOff", 1)]

/-- CanoeHandler.set_seatbelt_status: sends LightState with FlashLight mapped
to 0 when fastened and 1 otherwise. -/
def CanoeHandler.set_seatbelt_status (h : CanoeHandler) (is_fastened : Bool) : Except PyErr Unit :=
  h.send_message "LightState" [("FlashLight", if is_fastened then 0 else 1)]

/-- CanoeHandler.get_warning_chime_status: bool(read_signal of HeadLight). -/
def CanoeHandler.get_warning_chime_status (h : CanoeHandler) : Except PyErr Bool :=
  (h.read_signal "HeadLight").map (fun v => v != 0)

/-- The while loop of CanoeHandler.wait_for_chime_status, with the poll call
abstracted as a stream of Except results.  Timing model: the k-th iteration
tests the clock at time now, the poll is instantaneous and each
time.sleep(0.1) advances the clock by 1/10 of a second, so the next test
happens at now + 1/10. -/
def waitLoopE (poll : ℕ → Except PyErr Bool) (expected : Bool) (end_time : ℚ)
    (now : ℚ) (k : ℕ) : Except PyErr Bool :=
  if h : now < end_time then
    match poll k with
    | .error e => .error e
    | .ok s => if s == expected then .ok true
               else waitLoopE poll expected end_time (now + 1/10) (k + 1)
  else .ok false
termination_by (⌈(end_time - now) * 10⌉).toNat
decreasing_by
  have hx : (0 : ℚ) < (end_time - now) * 10 :=
    mul_pos (by linarith) (by norm_num)
  have hceil : 0 < ⌈(end_time - now) * 10⌉ := Int.ceil_pos.mpr hx
  have heq : (end_time - (now + 1/10)) * 10 = (end_time - now) * 10 - 1 := by ring
  rw [heq, Int.ceil_sub_one]
  omega

/-- CanoeHandler.wait_for_chime_status: end_time is the entry clock value start
plus timeout, and each iteration polls get_warning_chime_status. -/
def CanoeHandler.wait_for_chime_status (h : CanoeHandler) (expected_status : Bool)
    (timeout : ℚ) (start : ℚ) : Except PyErr Bool :=
  waitLoopE (fun _ => h.get_warning_chime_status) expected_status (start + timeout) start 0

/-- State of a DspaceHandler object (dspace_utils.py).  The COM objects app and
variables are not part of the state; their calls are modelled as explicit
Except-valued parameters at each use site. -/
structure DspaceHandler where
  model_path : String
  connected : Bool
  model_running : Bool
deriving DecidableEq

/-- The ImportError message of the pywin32 import guard at the top of
dspace_utils.py. -/
def pywin32Msg : String :=
  "pywin32 is required for dSPACE automation. Install with: pip install pywin32"

/-- The module-level import guard of dspace_utils.py: importing the module
raises ImportError exactly when pythoncom or win32com.client is unavailable. -/
def dspaceModuleImport (pywin32_available : Bool) : Except PyErr Unit :=
  if pywin32_available then .ok ()
  else .error (.importError pywin32Msg)

/-- Construction of a DspaceHandler.  pywin32_available models whether the
module-level import of dspace_utils.py succeeded; when it did not, the module
body raises ImportError and the class statement never executes, so no instance
can be created.  file_exists models model_path.exists(), and comConnect models
the CoInitialize, Dispatch, Load and Variables calls performed by _connect. -/
def DspaceHandler.init (pywin32_available : Bool) (model_path : String)
    (file_exists : Bool) (comConnect : Except String Unit) : Except PyErr DspaceHandler :=
  if pywin32_available then
    if file_exists then
      match comConnect with
      | .ok _ => .ok { model_path := model_path, connected := true, model_running := false }
      | .error e => .error (.runtimeError ("Failed to connect to dSPACE: " ++ e))
    else .error (.fileNotFoundError ("dSPACE model file not found: " ++ model_path))
  else .error (.importError pywin32Msg)

/-- DspaceHandler.start_model: ConnectionError when not connected; comCall
models app.StartModel(), on success model_running becomes True, and any
exception from the COM call is re-raised as RuntimeError with no retry
(model_running is left unchanged because the assignment follows the call). -/
def DspaceHandler.start_model (d : DspaceHandler) (comCall : Except String Unit) :
    Except PyErr DspaceHandler :=
  if d.connected then
    match comCall with
    | .ok _ => .ok { d with model_running := true }
    | .error e => .error (.runtimeError ("Failed to start model: " ++ e))
  else .error (.connectionError "Not connected to dSPACE")

/-- DspaceHandler.stop_model: ConnectionError when not connected; comCall models
app.StopModel(), on success model_running becomes False, and any exception from
the COM call is re-raised as RuntimeError with no retry. -/
def DspaceHandler.stop_model (d : DspaceHandler) (comCall : Except String Unit) :
    Except PyErr DspaceHandler :=
  if d.connected then
    match comCall with
    | .ok _ => .ok { d with model_running := false }
    | .error e => .error (.runtimeError ("Failed to stop model: " ++ e))
  else .error (.connectionError "Not connected to dSPACE")

/-- DspaceHandler.send_signal: ConnectionError when not connected, RuntimeError
when the model is not running; comCall models the Variables.Item lookup and the
Value assignment, and any exception from it is re-raised as ValueError with no
retry or rollback. -/
def DspaceHandler.send_signal (d : DspaceHandler) (signal_name : String) (_value : ℚ)
    (comCall : Except String Unit) : Except PyErr Unit :=
  if d.connected then
    if d.model_running then
      match comCall with
      | .ok _ => .ok ()
      | .error e => .error (.valueError ("Failed to write signal " ++ signal_name ++ ": " ++ e))
    else .error (.runtimeError "Model is not running")
  else .error (.connectionError "Not connected to dSPACE")

/-- DspaceHandler.read_signal: ConnectionError when not connected, RuntimeError
when the model is not running; comCall models the Variables.Item lookup and the
Value read, and any exception from it is re-raised as ValueError. -/
def DspaceHandler.read_signal (d : DspaceHandler) (signal_name : String)
    (comCall : Except String ℚ) : Except PyErr ℚ :=
  if d.connected then
    if d.model_running then
      match comCall with
      | .ok v => .ok v
      | .error e => .error (.valueError ("Failed to read signal " ++ signal_name ++ ": " ++ e))
    else .error (.runtimeError "Model is not running")
  else .error (.connectionError "Not connected to dSPACE")

/-- The method names defined by the class statement of DspaceHandler in
dspace_utils.py, in source order. -/
def dspaceMethods : List String :=
  ["__init__", "_connect", "start_model", "stop_model", "send_signal",
   "read_signal", "get_variable_info", "close"]

/-- The class DspaceHandler defines no method simulate_vehicle_speed, so in
Python the attribute access on an instance raises AttributeError before any
call happens.  Modelled as an operation that always raises. -/
def DspaceHandler.simulate_vehicle_speed (_d : DspaceHandler) (_speed : ℚ) : Except PyErr Unit :=
  .error (.attributeError "DspaceHandler object has no attribute simulate_vehicle_speed")

/-- The class DspaceHandler defines no method simulate_seatbelt_state;
accessing it raises AttributeError. -/
def DspaceHandler.simulate_seatbelt_state (_d : DspaceHandler) (_fastened : Bool) : Except PyErr Unit :=
  .error (.attributeError "DspaceHandler object has no attribute simulate_seatbelt_state")

/-- The class DspaceHandler defines no method wait_for_model_steady_state;
accessing it raises AttributeError. -/
def DspaceHandler.wait_for_model_steady_state (_d : DspaceHandler) : Except PyErr Unit :=
  .error (.attributeError "DspaceHandler object has no attribute wait_for_model_steady_state")

/-- The class DspaceHandler defines no method simulate_engine_start; accessing
it raises AttributeError. -/
def DspaceHandler.simulate_engine_start (_d : DspaceHandler) : Except PyErr Unit :=
  .error (.attributeError "DspaceHandler object has no attribute simulate_engine_start")

/-- The class DspaceHandler defines no method simulate_engine_stop; accessing
it raises AttributeError. -/
def DspaceHandler.simulate_engine_stop (_d : DspaceHandler) : Except PyErr Unit :=
  .error (.attributeError "DspaceHandler object has no attribute simulate_engine_stop")

/-- The SPEED_THRESHOLD constant of assert_speed_warning_threshold
(assertions.py), 10.0 km/h. -/
def SPEED_THRESHOLD : ℚ := 10

/-- The should_warn expression of assert_speed_warning_threshold:
speed > SPEED_THRESHOLD and not seatbelt_fastened. -/
def should_warn (speed : ℚ) (seatbelt_fastened : Bool) : Bool :=
  decide (speed > SPEED_THRESHOLD) && !seatbelt_fastened

/-- assert_speed_warning_threshold (assertions.py): the assert statement raises
AssertionError exactly when warning_active differs from should_warn.  The
formatted float values of the Python message are not reproduced. -/
def assert_speed_warning_threshold (speed : ℚ) (seatbelt_fastened : Bool)
    (warning_active : Bool) : Except PyErr Unit :=
  if warning_active == should_warn speed seatbelt_fastened then .ok ()
  else .error (.assertionError "warning state incorrect for speed and seatbelt state")

/-- The expected_warning expression of verify_seatbelt_warning
(safety_helpers.py line 63): vehicle_speed > 10.0 and not seatbelt_fastened. -/
def verify_expected_warning (vehicle_speed : ℚ) (seatbelt_fastened : Bool) : Bool :=
  decide (vehicle_speed > 10) && !seatbelt_fastened

/-- verify_seatbelt_warning (safety_helpers.py): sets the vehicle state on the
CANoe side, invokes the dSPACE simulate calls, reads the chime status and
compares it with expected_warning. -/
def verify_seatbelt_warning (canoe : CanoeHandler) (dspace : DspaceHandler)
    (vehicle_speed : ℚ) (seatbelt_fastened : Bool) : Except PyErr Bool := do
  canoe.set_vehicle_speed vehicle_speed
  canoe.set_seatbelt_status seatbelt_fastened
  dspace.simulate_vehicle_speed vehicle_speed
  dspace.simulate_seatbelt_state seatbelt_fastened
  dspace.wait_for_model_steady_state
  let warning_active ← canoe.get_warning_chime_status
  let expected_warning := verify_expected_warning vehicle_speed seatbelt_fastened
  return warning_active == expected_warning

/-- The setup part of the test_setup fixture (fixtures.py), the statements that
run before the yield. -/
def test_setup (canoe : CanoeHandler) (dspace : DspaceHandler) :
    Except PyErr (CanoeHandler × DspaceHandler) := do
  canoe.set_vehicle_speed 0
  canoe.set_seatbelt_status true
  dspace.simulate_vehicle_speed 0
  dspace.simulate_seatbelt_state true
  dspace.wait_for_model_steady_state
  return (canoe, dspace)

/-- The verification loop of start_engine (engine_helpers.py): up to n reads of
EngineSpeed, returning True as soon as the value is within 50 RPM of the
target and False when the iterations are exhausted. -/
def engineStartLoop (canoe : CanoeHandler) (target_rpm : ℚ) : ℕ → Except PyErr Bool
  | 0 => .ok false
  | n + 1 => do
      let current_rpm ← canoe.read_signal "EngineSpeed"
      if |(current_rpm : ℚ) - target_rpm| ≤ 50 then .ok true
      else engineStartLoop canoe target_rpm n

/-- start_engine (engine_helpers.py): sends the EngineState start command,
invokes the dSPACE simulate_engine_start call and runs the 10-step
verification loop. -/
def start_engine (canoe : CanoeHandler) (dspace : DspaceHandler)
    (target_rpm : ℚ) : Except PyErr Bool := do
  canoe.send_message "EngineState" [("OnOff", 1), ("EngineSpeed", 0)]
  dspace.simulate_engine_start
  engineStartLoop canoe target_rpm 10

/-- The verification loop of stop_engine: up to n reads of EngineSpeed,
returning True as soon as the value is 0 and False when exhausted. -/
def engineStopLoop (canoe : CanoeHandler) : ℕ → Except PyErr Bool
  | 0 => .ok false
  | n + 1 => do
      let v ← canoe.read_signal "EngineSpeed"
      if (v : ℚ) = 0 then .ok true
      else engineStopLoop canoe n

/-- stop_engine (engine_helpers.py): sends the EngineState stop command,
invokes the dSPACE simulate_engine_stop call and runs the 10-step
verification loop. -/
def stop_engine (canoe : CanoeHandler) (dspace : DspaceHandler) : Except PyErr Bool := do
  canoe.send_message "EngineState" [("OnOff", 0), ("EngineSpeed", 0)]
  dspace.simulate_engine_stop
  engineStopLoop canoe 10

/-- One invocation of a public CanoeHandler method, with its arguments. -/
inductive CanoeOp where
  | start_measurement
  | stop_measurement
  | read_signal (signal_name : String)
  | send_message (message_name : String) (data : List (String × ℚ))
  | set_vehicle_speed (speed : ℚ)
  | set_seatbelt_status (is_fastened : Bool)
  | get_warning_chime_status
  | wait_for_chime_status (expected_status : Bool) (timeout start : ℚ)

/-- The handler state after a public method call.  No CanoeHandler method body
contains an assignment to an attribute of self (only _connect, reachable only
from __init__, does), so every call leaves the state unchanged. -/
def CanoeOp.post (h : CanoeHandler) (_op : CanoeOp) : CanoeHandler := h

/-- The handler state after a sequence of public method calls. -/
def runOps (h : CanoeHandler) : List CanoeOp → CanoeHandler
  | [] => h
  | op :: rest => runOps (CanoeOp.post h op) rest

theorem runOps_eq (h : CanoeHandler) (ops : List CanoeOp) : runOps h ops = h := by
  induction ops with
  | nil => rfl
  | cons op rest ih => simpa [runOps, CanoeOp.post] using ih

theorem signal_map_lookup_eq_none (s : String) :
    signal_map.lookup s = none ↔
      ¬ (s = "EngineSpeed" ∨ s = "OnOff" ∨ s = "FlashLight" ∨ s = "HeadLight") := by
  by_cases h1 : s = "EngineSpeed" <;> by_cases h2 : s = "OnOff" <;>
    by_cases h3 : s = "FlashLight" <;> by_cases h4 : s = "HeadLight" <;>
    simp [signal_map, List.lookup, beq_eq_decide, h1, h2, h3, h4]

theorem message_map_lookup_eq_none (m : String) :
    message_map.lookup m = none ↔ ¬ (m = "EngineState" ∨ m = "LightState") := by
  by_cases h1 : m = "EngineState" <;> by_cases h2 : m = "LightState" <;>
    simp [message_map, List.lookup, beq_eq_decide, h1, h2]

theorem read_signal_raises_value_error (h : CanoeHandler) (hc : h.connected = true)
    (s : String) :
    raisesValueError (h.read_signal s) = true ↔ signal_map.lookup s = none := by
  cases hl : signal_map.lookup s <;>
    simp [CanoeHandler.read_signal, hc, hl, raisesValueError]

theorem find_invalid_key_iff (m : String) (data : List (String × ℚ)) :
    (data.find? (fun p => !(validKeys m).contains p.1)).isSome ↔
      ∃ p ∈ data, p.1 ∉ validKeys m := by
  rw [List.find?_isSome]
  constructor
  · rintro ⟨x, hx, hpx⟩
    exact ⟨x, hx, by simpa using hpx⟩
  · rintro ⟨x, hx, hpx⟩
    exact ⟨x, hx, by simpa using hpx⟩

theorem send_message_raises_value_error (h : CanoeHandler) (hc : h.connected = true)
    (m : String) (data : List (String × ℚ)) :
    raisesValueError (h.send_message m data) = true ↔
      (message_map.lookup m = none ∨ ∃ p ∈ data, p.1 ∉ validKeys m) := by
  unfold CanoeHandler.send_message
  cases hl : message_map.lookup m
  · simp [hc, hl, raisesValueError]
  · cases hf : data.find? (fun p => !(validKeys m).contains p.1)
    · have hnone : ¬ ∃ p ∈ data, p.1 ∉ validKeys m := by
        rw [← find_invalid_key_iff m data, hf]
        simp
      simp [hc, hl, raisesValueError, hf, hnone]
    · have hyes : ∃ p ∈ data, p.1 ∉ validKeys m :=
        (find_invalid_key_iff m data).mp (by rw [hf]; rfl)
      simp [hc, hl, raisesValueError, hf]
      obtain ⟨⟨a, b⟩, hmem, hnot⟩ := hyes
      exact ⟨a, ⟨b, hmem⟩, hnot⟩

theorem waitLoopE_const_aux (v expected : Bool) (end_time : ℚ) :
    ∀ (n : ℕ) (now : ℚ) (k : ℕ), (⌈(end_time - now) * 10⌉).toNat = n →
      waitLoopE (fun _ => Except.ok v) expected end_time now k =
        .ok (decide (now < end_time) && (v == expected)) := by
  intro n
  induction n with
  | zero =>
    intro now k hn
    have hnot : ¬ now < end_time := by
      intro hlt
      have hx : (0 : ℚ) < (end_time - now) * 10 := mul_pos (by linarith) (by norm_num)
      have := Int.ceil_pos.mpr hx
      omega
    rw [waitLoopE, dif_neg hnot]
    simp [hnot]
  | succ m ih =>
    intro now k hn
    rw [waitLoopE]
    by_cases hlt : now < end_time
    · rw [dif_pos hlt]
      have hx : (0 : ℚ) < (end_time - now) * 10 := mul_pos (by linarith) (by norm_num)
      have hpos := Int.ceil_pos.mpr hx
      have heq : (end_time - (now + 1/10)) * 10 = (end_time - now) * 10 - 1 := by ring
      have hm : (⌈(end_time - (now + 1/10)) * 10⌉).toNat = m := by
        rw [heq, Int.ceil_sub_one]
        omega
      have ihs := ih (now + 1/10) (k + 1) hm
      cases hv : v == expected
      · simp only [one_div] at ihs
        simp [hv, ihs, hlt]
      · simp [hv, hlt]
    · rw [dif_neg hlt]
      simp [hlt]

theorem waitLoopE_const (v expected : Bool) (end_time now : ℚ) (k : ℕ) :
    waitLoopE (fun _ => Except.ok v) expected end_time now k =
      .ok (decide (now < end_time) && (v == expected)) :=
  waitLoopE_const_aux v expected end_time _ now k rfl

theorem get_warning_chime_status_connected (h : CanoeHandler) (hc : h.connected = true) :
    h.get_warning_chime_status = .ok false := by
  simp [CanoeHandler.get_warning_chime_status, CanoeHandler.read_signal, hc,
    signal_map, List.lookup, Except.map]

theorem wait_for_chime_status_connected (h : CanoeHandler) (hc : h.connected = true)
    (e : Bool) (t s : ℚ) :
    h.wait_for_chime_status e t s = .ok (decide (s < s + t) && (false == e)) := by
  unfold CanoeHandler.wait_for_chime_status
  simp only [get_warning_chime_status_connected h hc]
  exact waitLoopE_const false e (s + t) s 0

theorem read_signal_valid_names (h : CanoeHandler) (hc : h.connected = true) :
    h.read_signal "EngineSpeed" = .ok 0 ∧ h.read_signal "OnOff" = .ok 0 ∧
      h.read_signal "FlashLight" = .ok 0 ∧ h.read_signal "HeadLight" = .ok 0 := by
  refine ⟨?_, ?_, ?_, ?_⟩ <;> simp [CanoeHandler.read_signal, hc, signal_map, List.lookup]

theorem send_message_engine_ok (h : CanoeHandler) (hc : h.connected = true) (v w : ℚ) :
    h.send_message "EngineState" [("EngineSpeed", v), ("OnOff", w)] = .ok () := by
  simp [CanoeHandler.send_message, hc, message_map, List.lookup, List.find?,
    validKeys, valid_signals]

theorem send_message_engine_ok_rev (h : CanoeHandler) (hc : h.connected = true) (v w : ℚ) :
    h.send_message "EngineState" [("OnOff", v), ("EngineSpeed", w)] = .ok () := by
  simp [CanoeHandler.send_message, hc, message_map, List.lookup, List.find?,
    validKeys, valid_signals]

theorem send_message_light_ok (h : CanoeHandler) (hc : h.connected = true) (v : ℚ) :
    h.send_message "LightState" [("FlashLight", v)] = .ok () := by
  simp [CanoeHandler.send_message, hc, message_map, List.lookup, List.find?,
    validKeys, valid_signals]

theorem set_vehicle_speed_ok (h : CanoeHandler) (hc : h.connected = true)
    (v : ℚ) (hv : 0 ≤ v) : h.set_vehicle_speed v = .ok () := by
  unfold CanoeHandler.set_vehicle_speed
  rw [if_neg (not_lt.mpr hv)]
  exact send_message_engine_ok h hc _ _

theorem set_seatbelt_status_ok (h : CanoeHandler) (hc : h.connected = true)
    (b : Bool) : h.set_seatbelt_status b = .ok () := by
  unfold CanoeHandler.set_seatbelt_status
  exact send_message_light_ok h hc _

theorem exceptBind_ok {ε α β : Type} (a : α) (f : α → Except ε β) :
    (Except.ok a >>= f) = f a := rfl

theorem exceptBind_error {ε α β : Type} (e : ε) (f : α → Except ε β) :
    ((Except.error e : Except ε α) >>= f) = .error e := rfl

theorem read_signal_no_connection_error (h : CanoeHandler) (hc : h.connected = true)
    (s : String) : raisesConnectionError (h.read_signal s) = false := by
  cases hl : signal_map.lookup s <;>
    simp [CanoeHandler.read_signal, hc, hl, raisesConnectionError]

theorem send_message_no_connection_error (h : CanoeHandler) (hc : h.connected = true)
    (m : String) (data : List (String × ℚ)) :
    raisesConnectionError (h.send_message m data) = false := by
  unfold CanoeHandler.send_message
  cases hl : message_map.lookup m
  · simp [hc, hl, raisesConnectionError]
  · cases hf : data.find? (fun p => !(validKeys m).contains p.1) <;>
      simp [hc, hl, hf, raisesConnectionError]

theorem set_vehicle_speed_no_connection_error (h : CanoeHandler) (hc : h.connected = true)
    (v : ℚ) : raisesConnectionError (h.set_vehicle_speed v) = false := by
  unfold CanoeHandler.set_vehicle_speed
  by_cases hv : v < 0
  · simp [hv, raisesConnectionError]
  · simp [hv, send_message_no_connection_error h hc]

theorem set_seatbelt_status_no_connection_error (h : CanoeHandler) (hc : h.connected = true)
    (b : Bool) : raisesConnectionError (h.set_seatbelt_status b) = false := by
  unfold CanoeHandler.set_seatbelt_status
  exact send_message_no_connection_error h hc _ _

theorem get_warning_chime_no_connection_error (h : CanoeHandler) (hc : h.connected = true) :
    raisesConnectionError h.get_warning_chime_status = false := by
  simp [get_warning_chime_status_connected h hc, raisesConnectionError]

theorem wait_for_chime_no_connection_error (h : CanoeHandler) (hc : h.connected = true)
    (e : Bool) (t s : ℚ) :
    raisesConnectionError (h.wait_for_chime_status e t s) = false := by
  simp [wait_for_chime_status_connected h hc e t s, raisesConnectionError]

theorem assert_speed_warning_ok_iff (speed : ℚ) (f w : Bool) :
    assert_speed_warning_threshold speed f w = .ok () ↔ w = should_warn speed f := by
  unfold assert_speed_warning_threshold
  by_cases hw : w = should_warn speed f <;> simp [beq_iff_eq, hw]

theorem assert_speed_warning_raises_iff (speed : ℚ) (f w : Bool) :
    raisesAssertionError (assert_speed_warning_threshold speed f w) = true ↔
      ¬ w = should_warn speed f := by
  unfold assert_speed_warning_threshold
  by_cases hw : w = should_warn speed f <;> simp [beq_iff_eq, hw, raisesAssertionError]

theorem should_warn_iff (speed : ℚ) (f : Bool) :
    should_warn speed f = true ↔ (SPEED_THRESHOLD < speed ∧ f = false) := by
  simp [should_warn, SPEED_THRESHOLD]

theorem verify_expected_warning_eq_should_warn (speed : ℚ) (f : Bool) :
    verify_expected_warning speed f = should_warn speed f := rfl

theorem verify_seatbelt_warning_attr_error (c : CanoeHandler) (hc : c.connected = true)
    (d : DspaceHandler) (speed : ℚ) (hs : 0 ≤ speed) (fastened : Bool) :
    verify_seatbelt_warning c d speed fastened =
      .error (.attributeError "DspaceHandler object has no attribute simulate_vehicle_speed") := by
  unfold verify_seatbelt_warning
  rw [set_vehicle_speed_ok c hc speed hs, exceptBind_ok,
    set_seatbelt_status_ok c hc fastened, exceptBind_ok]
  rw [show d.simulate_vehicle_speed speed =
    .error (.attributeError "DspaceHandler object has no attribute simulate_vehicle_speed") from rfl]
  rw [exceptBind_error]

theorem test_setup_attr_error (c : CanoeHandler) (hc : c.connected = true)
    (d : DspaceHandler) :
    test_setup c d =
      .error (.attributeError "DspaceHandler object has no attribute simulate_vehicle_speed") := by
  unfold test_setup
  rw [set_vehicle_speed_ok c hc 0 (by norm_num), exceptBind_ok,
    set_seatbelt_status_ok c hc true, exceptBind_ok]
  rw [show d.simulate_vehicle_speed 0 =
    .error (.attributeError "DspaceHandler object has no attribute simulate_vehicle_speed") from rfl]
  rw [exceptBind_error]

theorem start_engine_attr_error (c : CanoeHandler) (hc : c.connected = true)
    (d : DspaceHandler) (target_rpm : ℚ) :
    start_engine c d target_rpm =
      .error (.attributeError "DspaceHandler object has no attribute simulate_engine_start") := by
  unfold start_engine
  rw [send_message_engine_ok_rev c hc 1 0, exceptBind_ok]
  rw [show d.simulate_engine_start =
    .error (.attributeError "DspaceHandler object has no attribute simulate_engine_start") from rfl]
  rw [exceptBind_error]

theorem stop_engine_attr_error (c : CanoeHandler) (hc : c.connected = true)
    (d : DspaceHandler) :
    stop_engine c d =
      .error (.attributeError "DspaceHandler object has no attribute simulate_engine_stop") := by
  unfold stop_engine
  rw [send_message_engine_ok_rev c hc 0 0, exceptBind_ok]
  rw [show d.simulate_engine_stop =
    .error (.attributeError "DspaceHandler object has no attribute simulate_engine_stop") from rfl]
  rw [exceptBind_error]

theorem verify_seatbelt_warning_neg_speed (c : CanoeHandler) (d : DspaceHandler)
    (speed : ℚ) (hneg : speed < 0) (fastened : Bool) :
    verify_seatbelt_warning c d speed fastened =
      .error (.valueError "Speed cannot be negative") := by
  unfold verify_seatbelt_warning
  rw [show c.set_vehicle_speed speed = .error (.valueError "Speed cannot be negative") from by
    unfold CanoeHandler.set_vehicle_speed
    rw [if_pos hneg]]
  rw [exceptBind_error]

/-- C2: CanoeHandler.wait_for_chime_status is a fixed-interval polling wait
loop: for every expected status and timeout it polls the chime status at
100 ms steps (the k-th poll happens while start + k/10 is before the deadline
start + timeout), returns ok true exactly when some poll before the deadline
observes the expected status, returns ok false exactly when no such poll
exists, and raises nothing in either case. -/
theorem c2_wait_for_chime_polling (h : CanoeHandler) (hc : h.connected = true)
    (expected_status : Bool) (timeout start : ℚ) :
    (∃ b : Bool, h.wait_for_chime_status expected_status timeout start = .ok b) ∧
    (h.wait_for_chime_status expected_status timeout start = .ok true ↔
      ∃ k : ℕ, start + (k : ℚ)/10 < start + timeout ∧
        h.get_warning_chime_status = .ok expected_status) ∧
    (h.wait_for_chime_status expected_status timeout start = .ok false ↔
      ¬ ∃ k : ℕ, start + (k : ℚ)/10 < start + timeout ∧
        h.get_warning_chime_status = .ok expected_status) := by
  have hwait := wait_for_chime_status_connected h hc expected_status timeout start
  have hget := get_warning_chime_status_connected h hc
  refine ⟨⟨_, hwait⟩, ?_, ?_⟩
  · constructor
    · intro hok
      rw [hwait] at hok
      have hb := Except.ok.inj hok
      simp only [Bool.and_eq_true, decide_eq_true_eq, beq_iff_eq] at hb
      refine ⟨0, by simpa using hb.1, ?_⟩
      rw [hget]
      exact congrArg Except.ok hb.2
    · rintro ⟨k, hk, hobs⟩
      rw [hget] at hobs
      have he := Except.ok.inj hobs
      have hknn : (0 : ℚ) ≤ (k : ℚ)/10 := by positivity
      have hP : start < start + timeout := by linarith
      rw [hwait, ← he]
      simp [hP]
  · rw [hwait]
    constructor
    · intro hok hex
      obtain ⟨k, hk, hobs⟩ := hex
      rw [hget] at hobs
      have he := Except.ok.inj hobs
      have hb := Except.ok.inj hok
      have hknn : (0 : ℚ) ≤ (k : ℚ)/10 := by positivity
      have hP : start < start + timeout := by linarith
      rw [← he] at hb
      simp [hP] at hb
    · intro hnex
      by_cases hP : start < start + timeout
      · have hno : ¬ (h.get_warning_chime_status = .ok expected_status) := by
          intro hobs
          exact hnex ⟨0, by simpa using hP, hobs⟩
        rw [hget] at hno
        have he : expected_status = true := by
          cases expected_status
          · exact absurd rfl hno
          · rfl
        subst he
        simp [hP]
      · simp [hP]

/-- C2 witness: a connected handler built by the constructor satisfies the
hypothesis, and at expected status false with timeout 2 the wait returns
ok true because the very first poll observes the constant false status. -/
theorem c2_wait_for_chime_polling_witness :
    (CanoeHandler.init "cfg").wait_for_chime_status false 2 5 = .ok true := by
  have h := c2_wait_for_chime_polling (CanoeHandler.init "cfg") rfl false 2 5
  refine h.2.1.mpr ⟨0, by norm_num, ?_⟩
  exact get_warning_chime_status_connected _ rfl

/-- C3: for a connected handler, read_signal raises ValueError exactly when the
name is not one of the four mapped signals, and send_message raises ValueError
exactly when the message name is not EngineState or LightState or some key of
data is not a valid signal of the message; the maps bind EngineState to CAN ID
291 with signals EngineSpeed and OnOff and LightState to CAN ID 801 with
signals FlashLight and HeadLight. -/
theorem c3_signal_and_message_validation (h : CanoeHandler) (hc : h.connected = true)
    (s m : String) (data : List (String × ℚ)) :
    (raisesValueError (h.read_signal s) = true ↔
      ¬ (s = "EngineSpeed" ∨ s = "OnOff" ∨ s = "FlashLight" ∨ s = "HeadLight")) ∧
    (raisesValueError (h.send_message m data) = true ↔
      (¬ (m = "EngineState" ∨ m = "LightState") ∨ ∃ p ∈ data, p.1 ∉ validKeys m)) ∧
    message_map.lookup "EngineState" = some 291 ∧
    message_map.lookup "LightState" = some 801 ∧
    validKeys "EngineState" = ["EngineSpeed", "OnOff"] ∧
    validKeys "LightState" = ["FlashLight", "HeadLight"] := by
  refine ⟨?_, ?_, by rfl, by rfl, by rfl, by rfl⟩
  · rw [read_signal_raises_value_error h hc s, signal_map_lookup_eq_none]
  · rw [send_message_raises_value_error h hc m data, message_map_lookup_eq_none]

/-- C3 witness: the constructed handler is connected, and reading the unmapped
name Bogus raises ValueError. -/
theorem c3_signal_and_message_validation_witness :
    raisesValueError ((CanoeHandler.init "cfg").read_signal "Bogus") = true := by
  have h := c3_signal_and_message_validation (CanoeHandler.init "cfg") rfl
    "Bogus" "LightState" [("HeadLight", 1)]
  exact h.1.mpr (by decide)

/-- C5: on a connected DspaceHandler with the model running, a COM failure in
send_signal or read_signal is re-raised as ValueError and a COM failure in
start_model or stop_model is re-raised as RuntimeError; the COM call is made
once and nothing else is attempted. -/
theorem c5_dspace_reraise (d : DspaceHandler) (hc : d.connected = true)
    (hr : d.model_running = true) (signal_name : String) (v : ℚ) (em : String) :
    d.send_signal signal_name v (.error em) =
      .error (.valueError ("Failed to write signal " ++ signal_name ++ ": " ++ em)) ∧
    d.read_signal signal_name (.error em) =
      .error (.valueError ("Failed to read signal " ++ signal_name ++ ": " ++ em)) ∧
    d.start_model (.error em) =
      .error (.runtimeError ("Failed to start model: " ++ em)) ∧
    d.stop_model (.error em) =
      .error (.runtimeError ("Failed to stop model: " ++ em)) := by
  refine ⟨?_, ?_, ?_, ?_⟩ <;>
    simp [DspaceHandler.send_signal, DspaceHandler.read_signal,
      DspaceHandler.start_model, DspaceHandler.stop_model, hc, hr]

/-- C5 witness: a connected running handler satisfies both hypotheses, and a
failing write is re-raised as ValueError. -/
theorem c5_dspace_reraise_witness :
    DspaceHandler.send_signal { model_path := "m", connected := true, model_running := true }
        "Speed" 0 (.error "boom") =
      .error (.valueError ("Failed to write signal " ++ "Speed" ++ ": " ++ "boom")) := by
  exact (c5_dspace_reraise ⟨"m", true, true⟩ rfl rfl "Speed" 0 "boom").1

/-- C6: read_signal is a placeholder returning the constant 0: on a handler
built by the constructor, after any sequence of public method calls, reading
any of the four valid signal names yields ok 0. -/
theorem c6_read_signal_constant_zero (cfg : String) (ops : List CanoeOp) :
    (runOps (CanoeHandler.init cfg) ops).read_signal "EngineSpeed" = .ok 0 ∧
    (runOps (CanoeHandler.init cfg) ops).read_signal "OnOff" = .ok 0 ∧
    (runOps (CanoeHandler.init cfg) ops).read_signal "FlashLight" = .ok 0 ∧
    (runOps (CanoeHandler.init cfg) ops).read_signal "HeadLight" = .ok 0 := by
  rw [runOps_eq]
  exact read_signal_valid_names (CanoeHandler.init cfg) rfl

/-- C7: when pywin32 is unavailable, importing dspace_utils raises ImportError,
and no DspaceHandler construction can succeed. -/
theorem c7_pywin32_required (model_path : String) (file_exists : Bool)
    (comConnect : Except String Unit) :
    dspaceModuleImport false = .error (.importError pywin32Msg) ∧
    DspaceHandler.init false model_path file_exists comConnect =
      .error (.importError pywin32Msg) :=
  ⟨rfl, rfl⟩

/-- C9: every CanoeHandler built by the constructor has connected = true, the
flag stays true across any sequence of public method calls, and hence no
public method on such a handler ever raises ConnectionError. -/
theorem c9_connected_invariant (cfg : String) (ops : List CanoeOp) (s m : String)
    (data : List (String × ℚ)) (v : ℚ) (b e : Bool) (t st : ℚ) :
    (runOps (CanoeHandler.init cfg) ops).connected = true ∧
    raisesConnectionError ((runOps (CanoeHandler.init cfg) ops).start_measurement) = false ∧
    raisesConnectionError ((runOps (CanoeHandler.init cfg) ops).stop_measurement) = false ∧
    raisesConnectionError ((runOps (CanoeHandler.init cfg) ops).read_signal s) = false ∧
    raisesConnectionError ((runOps (CanoeHandler.init cfg) ops).send_message m data) = false ∧
    raisesConnectionError ((runOps (CanoeHandler.init cfg) ops).set_vehicle_speed v) = false ∧
    raisesConnectionError ((runOps (CanoeHandler.init cfg) ops).set_seatbelt_status b) = false ∧
    raisesConnectionError ((runOps (CanoeHandler.init cfg) ops).get_warning_chime_status) = false ∧
    raisesConnectionError ((runOps (CanoeHandler.init cfg) ops).wait_for_chime_status e t st) = false := by
  rw [runOps_eq]
  have hc : (CanoeHandler.init cfg).connected = true := rfl
  exact ⟨rfl,
    by simp [CanoeHandler.start_measurement, CanoeHandler.init, raisesConnectionError],
    by simp [CanoeHandler.stop_measurement, CanoeHandler.init, raisesConnectionError],
    read_signal_no_connection_error _ hc s,
    send_message_no_connection_error _ hc m data,
    set_vehicle_speed_no_connection_error _ hc v,
    set_seatbelt_status_no_connection_error _ hc b,
    get_warning_chime_no_connection_error _ hc,
    wait_for_chime_no_connection_error _ hc e t st⟩

/-- C8 counterexample: the claim says every call to verify_seatbelt_warning on
a DspaceHandler instance raises AttributeError before completing, but at speed
-1 the call raises ValueError inside canoe.set_vehicle_speed before any dspace
attribute access, so no AttributeError is raised. -/
theorem c8_negative_speed_value_error :
    raisesAttributeError
        (verify_seatbelt_warning (CanoeHandler.init "cfg") ⟨"m", true, true⟩ (-1) true) = false ∧
    verify_seatbelt_warning (CanoeHandler.init "cfg") ⟨"m", true, true⟩ (-1) true =
      .error (.valueError "Speed cannot be negative") := by
  have h := verify_seatbelt_warning_neg_speed (CanoeHandler.init "cfg") ⟨"m", true, true⟩
    (-1) (by norm_num) true
  exact ⟨by rw [h]; rfl, h⟩

/-- C8 (amended): on a constructed CanoeHandler and any DspaceHandler, each of
test_setup, start_engine and stop_engine raises AttributeError before
completing, and verify_seatbelt_warning raises AttributeError for every
nonnegative speed; for negative speed it instead raises ValueError at
canoe.set_vehicle_speed, before any dspace attribute access. -/
theorem c8_missing_dspace_methods (cfg : String) (d : DspaceHandler) (speed : ℚ)
    (fastened : Bool) (target_rpm : ℚ) (negSpeed : ℚ) (hs : 0 ≤ speed)
    (hneg : negSpeed < 0) :
    raisesAttributeError (test_setup (CanoeHandler.init cfg) d) = true ∧
    raisesAttributeError (verify_seatbelt_warning (CanoeHandler.init cfg) d speed fastened) = true ∧
    raisesAttributeError (start_engine (CanoeHandler.init cfg) d target_rpm) = true ∧
    raisesAttributeError (stop_engine (CanoeHandler.init cfg) d) = true ∧
    verify_seatbelt_warning (CanoeHandler.init cfg) d negSpeed fastened =
      .error (.valueError "Speed cannot be negative") := by
  have hc : (CanoeHandler.init cfg).connected = true := rfl
  refine ⟨?_, ?_, ?_, ?_, ?_⟩
  · rw [test_setup_attr_error _ hc d]; rfl
  · rw [verify_seatbelt_warning_attr_error _ hc d speed hs fastened]; rfl
  · rw [start_engine_attr_error _ hc d target_rpm]; rfl
  · rw [stop_engine_attr_error _ hc d]; rfl
  · exact verify_seatbelt_warning_neg_speed _ d negSpeed hneg fastened

/-- C8 witness: at speed 0 and negative speed -1 both hypotheses hold, and the
test_setup fixture raises AttributeError. -/
theorem c8_missing_dspace_methods_witness :
    raisesAttributeError (test_setup (CanoeHandler.init "cfg") ⟨"m", true, true⟩) = true :=
  (c8_missing_dspace_methods "cfg" ⟨"m", true, true⟩ 0 false 800 (-1)
    (by norm_num) (by norm_num)).1

/-- C1 counterexample: at 20 km/h with the seatbelt unfastened the claim says
verify_seatbelt_warning returns True exactly when the observed chime status
equals the predicate, hence returns some boolean; instead the call raises
AttributeError at the missing dspace simulate call and returns nothing. -/
theorem c1_verify_never_returns :
    verify_seatbelt_warning (CanoeHandler.init "cfg") ⟨"m", true, true⟩ 20 false ≠ .ok false ∧
    verify_seatbelt_warning (CanoeHandler.init "cfg") ⟨"m", true, true⟩ 20 false ≠ .ok true ∧
    verify_seatbelt_warning (CanoeHandler.init "cfg") ⟨"m", true, true⟩ 20 false =
      .error (.attributeError "DspaceHandler object has no attribute simulate_vehicle_speed") := by
  have h := verify_seatbelt_warning_attr_error (CanoeHandler.init "cfg") rfl
    ⟨"m", true, true⟩ 20 (by norm_num) false
  refine ⟨?_, ?_, h⟩ <;> simp [h]

/-- C1 (amended): the seatbelt warning decision is the single fixed threshold
predicate, warning expected active exactly when speed exceeds 10.0 km/h and
the belt is unfastened; assert_speed_warning_threshold raises AssertionError
exactly when warning_active differs from this predicate, and
verify_seatbelt_warning computes its expected status from the same predicate
but raises AttributeError at the missing dspace simulate calls before
returning. -/
theorem c1_threshold_rule (speed : ℚ) (fastened warning_active : Bool) (cfg : String)
    (d : DspaceHandler) (hs : 0 ≤ speed) :
    (assert_speed_warning_threshold speed fastened warning_active = .ok () ↔
      warning_active = should_warn speed fastened) ∧
    (raisesAssertionError (assert_speed_warning_threshold speed fastened warning_active) = true ↔
      ¬ warning_active = should_warn speed fastened) ∧
    (should_warn speed fastened = true ↔ (SPEED_THRESHOLD < speed ∧ fastened = false)) ∧
    verify_expected_warning speed fastened = should_warn speed fastened ∧
    verify_seatbelt_warning (CanoeHandler.init cfg) d speed fastened =
      .error (.attributeError "DspaceHandler object has no attribute simulate_vehicle_speed") :=
  ⟨assert_speed_warning_ok_iff speed fastened warning_active,
    assert_speed_warning_raises_iff speed fastened warning_active,
    should_warn_iff speed fastened,
    verify_expected_warning_eq_should_warn speed fastened,
    verify_seatbelt_warning_attr_error _ rfl d speed hs fastened⟩

/-- C1 witness: at 20 km/h unfastened the hypothesis holds and reporting the
warning as inactive trips the assertion. -/
theorem c1_threshold_rule_witness :
    raisesAssertionError (assert_speed_warning_threshold 20 false false) = true := by
  have h := c1_threshold_rule 20 false false "cfg" ⟨"m", true, true⟩ (by norm_num)
  refine h.2.1.mpr ?_
  have hw : should_warn 20 false = true :=
    (should_warn_iff 20 false).mpr ⟨by norm_num [SPEED_THRESHOLD], rfl⟩
  intro heq
  rw [hw] at heq
  exact Bool.false_ne_true heq

/-- C4 counterexample: the class statement of DspaceHandler defines no wait
operation at all: neither a method named wait_for_chime_status nor the
wait_for_model_steady_state the fixtures invoke, and the latter call raises
AttributeError rather than behaving like the CanoeHandler poll loop. -/
theorem c4_no_dspace_wait_loop :
    dspaceMethods.contains "wait_for_chime_status" = false ∧
    dspaceMethods.contains "wait_for_model_steady_state" = false ∧
    DspaceHandler.wait_for_model_steady_state ⟨"m", true, true⟩ =
      .error (.attributeError "DspaceHandler object has no attribute wait_for_model_steady_state") := by
  refine ⟨by decide, by decide, rfl⟩

/-- C4 (amended): the fixed-interval polling wait loop exists only in
CanoeHandler, whose wait_for_chime_status is the 100 ms poll loop; the methods
of DspaceHandler are exactly __init__, _connect, start_model, stop_model,
send_signal, read_signal, get_variable_info and close, none of them a wait
operation, and the steady-state wait the fixtures invoke on a DspaceHandler
raises AttributeError. -/
theorem c4_wait_only_in_canoe (d : DspaceHandler) (h : CanoeHandler) (e : Bool) (t s : ℚ) :
    dspaceMethods = ["__init__", "_connect", "start_model", "stop_model",
      "send_signal", "read_signal", "get_variable_info", "close"] ∧
    dspaceMethods.contains "wait_for_chime_status" = false ∧
    d.wait_for_model_steady_state =
      .error (.attributeError "DspaceHandler object has no attribute wait_for_model_steady_state") ∧
    h.wait_for_chime_status e t s =
      waitLoopE (fun _ => h.get_warning_chime_status) e (s + t) s 0 :=
  ⟨rfl, by decide, rfl, rfl⟩

/-- C10 counterexample: the claim quantifies over every timeout, but with
timeout 0 the deadline passes before any poll, so waiting for status False
returns False rather than returning True on a first poll. -/
theorem c10_zero_timeout_returns_false :
    (CanoeHandler.init "cfg").wait_for_chime_status false 0 0 = .ok false := by
  rw [wait_for_chime_status_connected (CanoeHandler.init "cfg") rfl false 0 0]
  norm_num

/-- C10 (amended): on every connected CanoeHandler the chime status reads as
False because read_signal returns 0 for the HeadLight proxy; hence for every
positive timeout, waiting for status False succeeds on the first poll and
waiting for status True runs out the deadline and returns False. -/
theorem c10_chime_never_active (h : CanoeHandler) (hc : h.connected = true)
    (t s : ℚ) (ht : 0 < t) :
    h.get_warning_chime_status = .ok false ∧
    h.wait_for_chime_status false t s = .ok true ∧
    h.wait_for_chime_status true t s = .ok false := by
  refine ⟨get_warning_chime_status_connected h hc, ?_, ?_⟩
  · rw [wait_for_chime_status_connected h hc false t s]
    have hP : s < s + t := by linarith
    simp [hP]
  · rw [wait_for_chime_status_connected h hc true t s]
    simp

/-- C10 witness: with timeout 1 both hypotheses hold and waiting for the
inactive status succeeds immediately. -/
theorem c10_chime_never_active_witness :
    (CanoeHandler.init "cfg").wait_for_chime_status false 1 0 = .ok true :=
  (c10_chime_never_active (CanoeHandler.init "cfg") rfl 1 0 (by norm_num)).2.1
